import Mathlib

/-!
Shallow embedding of the Redis list output writer
(`lib/output/writer/redis_list.go`) and proofs about its connection
lifecycle and write path.

Modelling conventions:
* Pure data (configuration, parsed URL, client options) is embedded as
  Lean structures mirroring the Go structs.
* The network is an explicit oracle: `Connect` takes the ping outcome as a
  function of the client options, `Write` takes the outcome of the i-th
  push of the call, `disconnect` takes the outcome of closing the handle.
  `none` means the operation succeeded, `some e` means it failed with the
  store-specific error text `e`.
* Side effects on the wire are made observable: `Write` additionally
  returns the list of tail-append (RPush) operations it issued, as
  `(key, payload)` pairs in issue order.
* Errors are the `GoError` inductive; `GoError.notConnected` embeds
  `types.ErrNotConnected`.
-/

set_option autoImplicit false

namespace Writer

/-- A message part's raw payload bytes (`p.Get()` in the source). -/
abbrev Part := List Nat

/-- Errors the component can return.  `notConnected` is
`types.ErrNotConnected`; `invalidRedisDB p` is the formatted error
`"invalid Redis DB, can't parse '<p>'"` built in `Connect`; the remaining
constructors carry the underlying error text of the failing operation. -/
inductive GoError where
  | notConnected
  | urlParseFailed (msg : String)
  | invalidRedisDB (path : String)
  | pingFailed (msg : String)
  | closeFailed (msg : String)
  deriving DecidableEq, Repr

/-- `RedisListConfig` from the source: endpoint URL, list key and the
caller-enforced in-flight bound. -/
structure RedisListConfig where
  url : String
  key : String
  maxInFlight : Nat
  deriving DecidableEq, Repr

/-- `NewRedisListConfig` from the source: the default configuration. -/
def NewRedisListConfig : RedisListConfig :=
  { url := "tcp://localhost:6379", key := "benthos_list", maxInFlight := 1 }

/-- The parsed endpoint, mirroring the fields of Go's `url.URL` that the
component reads: `Scheme`, `User` (presence plus optional password),
`Host` and `Path`. -/
structure URL where
  scheme : String
  hasUser : Bool
  password : Option String
  host : String
  path : String
  deriving DecidableEq, Repr

/-- The options a Redis client handle is created with (`redis.Options` as
filled in by `Connect`).  A handle is opaque, so it is identified by its
options. -/
structure RedisOptions where
  addr : String
  network : String
  db : Int
  password : String
  deriving DecidableEq, Repr

/-- `RedisList` from the source: the parsed URL, the configuration and the
current connection handle (`nil` in Go is `none` here).  The log, metrics
and mutex fields carry no data relevant to the claims. -/
structure RedisList where
  url : URL
  conf : RedisListConfig
  client : Option RedisOptions
  deriving DecidableEq, Repr

/-- Splits `cs` at the first occurrence of the (nonempty) separator `sep`:
returns the part before it and the part after it, or `none` when `sep`
does not occur. -/
def breakOn (cs sep : List Char) : Option (List Char × List Char) :=
  match cs with
  | [] => none
  | c :: rest =>
    if List.isPrefixOf sep cs then some ([], cs.drop sep.length)
    else
      match breakOn rest sep with
      | some (pre, post) => some (c :: pre, post)
      | none => none

/-- Modelled from the spec: the endpoint parser (`url.Parse` in the
source, whose body is outside this repository).  Per the spec the
endpoint is a URI `scheme://[userinfo@]host[/path]` carrying a network
scheme, a `host:port` authority, an optional embedded credential and an
optional path; parsing fails on malformed input (here: a control
character in the string, as Go's parser rejects).  The password is the
portion of the userinfo after the first colon, absent when the userinfo
has no colon. -/
def urlParse (s : String) : Except String URL :=
  let cs := s.data
  if cs.any (fun c => c.toNat < 32 || c.toNat == 127) then
    .error "invalid control character in URL"
  else
    match breakOn cs [':', '/', '/'] with
    | none =>
      .ok { scheme := "", hasUser := false, password := none,
            host := "", path := s }
    | some (schemeCs, rest) =>
      let auth := rest.takeWhile (fun c => c ≠ '/')
      let path := rest.dropWhile (fun c => c ≠ '/')
      match breakOn auth ['@'] with
      | none =>
        .ok { scheme := String.mk schemeCs, hasUser := false,
              password := none, host := String.mk auth,
              path := String.mk path }
      | some (ui, h) =>
        match breakOn ui [':'] with
        | none =>
          .ok { scheme := String.mk schemeCs, hasUser := true,
                password := none, host := String.mk h,
                path := String.mk path }
        | some (_, pw) =>
          .ok { scheme := String.mk schemeCs, hasUser := true,
                password := some (String.mk pw), host := String.mk h,
                path := String.mk path }

/-- Decimal value of a nonempty all-digit character list, most
significant digit first; `none` otherwise. -/
def digitsVal (cs : List Char) : Option Nat :=
  match cs with
  | [] => none
  | _ =>
    cs.foldl
      (fun acc c =>
        match acc with
        | none => none
        | some n => if c.isDigit then some (n * 10 + (c.toNat - 48)) else none)
      (some 0)

/-- Modelled from the spec / Go's `strconv.Atoi` (outside this
repository): parses an optionally signed decimal integer; fails on the
empty string, a stray sign, any non-digit character, or a value outside
the signed 64-bit range. -/
def goAtoi (s : String) : Option Int :=
  let cs := s.data
  let signed : Bool × List Char :=
    match cs with
    | [] => (false, [])
    | c :: rest =>
      if c = '-' then (true, rest)
      else if c = '+' then (false, rest)
      else (false, cs)
  match digitsVal signed.2 with
  | none => none
  | some n =>
    let v : Int := if signed.1 then -(n : Int) else (n : Int)
    if -(2 ^ 63) ≤ v ∧ v ≤ 2 ^ 63 - 1 then some v else none

/-- `NewRedisList` from the source: stores the configuration, parses the
endpoint URL once, fails when the URL does not parse, and starts with no
client handle installed. -/
def NewRedisList (conf : RedisListConfig) : Except GoError RedisList :=
  match urlParse conf.url with
  | .error e => .error (.urlParseFailed e)
  | .ok u => .ok { url := u, conf := conf, client := none }

/-- The effective password extracted in `Connect`: empty unless the URL
carries user info whose `Password()` reports a password. -/
def passOf (u : URL) : String :=
  if u.hasUser then u.password.getD "" else ""

/-- The `redis.Options` that `Connect` fills in for a given resolved
database index. -/
def clientOf (r : RedisList) (redisDB : Int) : RedisOptions :=
  { addr := r.url.host, network := r.url.scheme, db := redisDB,
    password := passOf r.url }

/-- The database-index resolution performed inside `Connect` on every
call: the index defaults to 0; when the URL path is longer than the
leading separator it is parsed with `strconv.Atoi` from the path with its
first character stripped, failing with the formatted config error on a
parse failure. -/
def resolveDB (u : URL) : Except GoError Int :=
  if 1 < u.path.length then
    match goAtoi (u.path.drop 1) with
    | some n => .ok n
    | none => .error (.invalidRedisDB u.path)
  else .ok 0

/-- `Connect` from the source: resolve the database index (anew on every
call), build the client options, ping via the `pingErr` oracle, and only
on ping success install the handle. -/
def Connect (r : RedisList) (pingErr : RedisOptions → Option String) :
    Option GoError × RedisList :=
  match resolveDB r.url with
  | .error e => (some e, r)
  | .ok redisDB =>
    let client := clientOf r redisDB
    match pingErr client with
    | some e => (some (.pingFailed e), r)
    | none => (none, { r with client := some client })

/-- `disconnect` from the source: when a handle is installed it is closed
(outcome given by the `closeErr` oracle) and the stored reference cleared
regardless of the close outcome; with no handle installed it is a no-op
success. -/
def disconnect (r : RedisList) (closeErr : Option String) :
    Option GoError × RedisList :=
  match r.client with
  | some _ => (closeErr.map GoError.closeFailed, { r with client := none })
  | none => (none, r)

/-- Modelled from the spec: `types.Message.Iter` (outside this
repository) applies the body to each part in order with its index and
stops at the first error — fused here with the closure `Write` passes it.
For part `i` the push outcome is `pushErr i`; on the first failing push
the component disconnects (discarding the close outcome, as the source
does) and the iteration returns `notConnected`.  Also returned is the
list of `(key, payload)` RPush operations issued, the failing one
included. -/
def msgIter (r : RedisList) (key : String) (parts : List Part) (i : Nat)
    (pushErr : Nat → Option String) (closeErr : Option String) :
    Option GoError × RedisList × List (String × Part) :=
  match parts with
  | [] => (none, r, [])
  | p :: rest =>
    match pushErr i with
    | some _ => (some GoError.notConnected, (disconnect r closeErr).2, [(key, p)])
    | none =>
      let t := msgIter r key rest (i + 1) pushErr closeErr
      (t.1, t.2.1, (key, p) :: t.2.2)

/-- `Write` from the source: snapshot the handle under the read lock,
fail with `notConnected` when none is installed (issuing no push), else
iterate over the message parts pushing each to the configured key. -/
def Write (r : RedisList) (msg : List Part) (pushErr : Nat → Option String)
    (closeErr : Option String) :
    Option GoError × RedisList × List (String × Part) :=
  match r.client with
  | none => (some GoError.notConnected, r, [])
  | some _ => msgIter r r.conf.key msg 0 pushErr closeErr

/-- `CloseAsync` from the source: schedules `disconnect` and discards its
result; modelled as the post-disconnect state with the error dropped. -/
def CloseAsync (r : RedisList) (closeErr : Option String) : RedisList :=
  (disconnect r closeErr).2

/-- `WaitForClose` from the source: returns success unconditionally. -/
def WaitForClose (_r : RedisList) (_timeout : Nat) : Option GoError :=
  none

/-- Standard positional decimal semantics of a digit list, most
significant digit first — the reference meaning of the numeral `N` in an
endpoint path `/N`. -/
def decValue (cs : List Char) : Nat :=
  cs.foldl (fun a c => a * 10 + (c.toNat - 48)) 0

/-- A concrete connected sink used as test data. -/
def exSink : RedisList :=
  { url := { scheme := "tcp", hasUser := false, password := none,
             host := "localhost:6379", path := "" },
    conf := { url := "tcp://localhost:6379", key := "benthos_list",
              maxInFlight := 1 },
    client := some { addr := "localhost:6379", network := "tcp", db := 0,
                     password := "" } }

/-! ### Helper lemmas -/

theorem disconnect_snd (r : RedisList) (ce : Option String) :
    (disconnect r ce).2 = { r with client := none } := by
  cases r with
  | mk u c cl => cases cl <;> rfl

theorem msgIter_ok (parts : List Part) (r : RedisList) (key : String)
    (i : Nat) (pe : Nat → Option String) (ce : Option String)
    (h : ∀ j, j < parts.length → pe (i + j) = none) :
    msgIter r key parts i pe ce = (none, r, parts.map (fun p => (key, p))) := by
  induction parts generalizing i with
  | nil => rfl
  | cons p rest ih =>
    have h0 : pe i = none := by simpa using h 0 (by simp)
    have hrest : ∀ j, j < rest.length → pe ((i + 1) + j) = none := by
      intro j hj
      have := h (j + 1) (by simpa using Nat.succ_lt_succ hj)
      simpa [Nat.add_comm, Nat.add_assoc, Nat.add_left_comm] using this
    simp [msgIter, h0, ih (i + 1) hrest]

theorem msgIter_fail (parts : List Part) (j : Nat) (r : RedisList)
    (key : String) (i : Nat) (pe : Nat → Option String) (ce : Option String)
    (e : String) (hj : j < parts.length)
    (hok : ∀ k, k < j → pe (i + k) = none) (he : pe (i + j) = some e) :
    msgIter r key parts i pe ce =
      (some GoError.notConnected, { r with client := none },
       (parts.take (j + 1)).map (fun p => (key, p))) := by
  induction parts generalizing i j with
  | nil => exact absurd hj (by simp)
  | cons p rest ih =>
    cases j with
    | zero =>
      have h0 : pe i = some e := by simpa using he
      simp [msgIter, h0, disconnect_snd]
    | succ j2 =>
      have h0 : pe i = none := by simpa using hok 0 (Nat.succ_pos j2)
      have hok2 : ∀ k, k < j2 → pe ((i + 1) + k) = none := by
        intro k hk
        have := hok (k + 1) (Nat.succ_lt_succ hk)
        simpa [Nat.add_comm, Nat.add_assoc, Nat.add_left_comm] using this
      have he2 : pe ((i + 1) + j2) = some e := by
        simpa [Nat.add_comm, Nat.add_assoc, Nat.add_left_comm] using he
      have hj2 : j2 < rest.length := Nat.lt_of_succ_lt_succ (by simpa using hj)
      simp [msgIter, h0, ih j2 (i + 1) hj2 hok2 he2]

theorem msgIter_closeErr_irrelevant (parts : List Part) (r : RedisList)
    (key : String) (i : Nat) (pe : Nat → Option String)
    (ce1 ce2 : Option String) :
    msgIter r key parts i pe ce1 = msgIter r key parts i pe ce2 := by
  induction parts generalizing i with
  | nil => rfl
  | cons p rest ih =>
    cases h : pe i <;> simp [msgIter, h, disconnect_snd, ih]

theorem digitsVal_foldl (cs : List Char) (a : Nat)
    (h : ∀ c ∈ cs, c.isDigit) :
    cs.foldl
      (fun acc c =>
        match acc with
        | none => none
        | some n => if c.isDigit then some (n * 10 + (c.toNat - 48)) else none)
      (some a) = some (cs.foldl (fun a c => a * 10 + (c.toNat - 48)) a) := by
  induction cs generalizing a with
  | nil => rfl
  | cons c rest ih =>
    have hc : c.isDigit := h c (by simp)
    simp only [List.foldl_cons, hc, if_true]
    exact ih (a * 10 + (c.toNat - 48)) (fun d hd => h d (by simp [hd]))

theorem digitsVal_eq_decValue (cs : List Char) (hne : cs ≠ [])
    (h : ∀ c ∈ cs, c.isDigit) :
    digitsVal cs = some (decValue cs) := by
  cases cs with
  | nil => exact absurd rfl hne
  | cons c rest =>
    simpa [digitsVal, decValue] using digitsVal_foldl (c :: rest) 0 h

theorem goAtoi_digits (s : List Char) (hne : s ≠ [])
    (h : ∀ c ∈ s, c.isDigit) (hle : (decValue s : Int) ≤ 2 ^ 63 - 1) :
    goAtoi (String.mk s) = some (decValue s) := by
  cases s with
  | nil => exact absurd rfl hne
  | cons c rest =>
    have hc : c.isDigit := h c (by simp)
    have hcm : ¬ c = '-' := by
      intro hcc
      rw [hcc] at hc
      exact absurd hc (by decide)
    have hcp : ¬ c = '+' := by
      intro hcc
      rw [hcc] at hc
      exact absurd hc (by decide)
    have hd := digitsVal_eq_decValue (c :: rest) (by simp) h
    have h1 : (-(2 ^ 63) : Int) ≤ ((decValue (c :: rest) : Nat) : Int) :=
      le_trans (by norm_num) (Int.ofNat_nonneg _)
    simp [goAtoi, hcm, hcp, hd, h1, hle]
    norm_num at h1 hle
    exact ⟨h1, by exact_mod_cast hle⟩

/-! ### Claim theorems -/

/-- C1: with a connected sink, a write of a message of k parts (k ≥ 1)
whose appends all succeed issues exactly one RPush per part, to the
configured list key, in part order, returns success, and leaves the sink
unchanged. -/
theorem C1_write_pushes_each_part_in_order (r : RedisList) (c : RedisOptions)
    (msg : List Part) (pe : Nat → Option String) (ce : Option String)
    (hc : r.client = some c) (_hk : 1 ≤ msg.length)
    (hok : ∀ i, i < msg.length → pe i = none) :
    Write r msg pe ce = (none, r, msg.map (fun p => (r.conf.key, p))) := by
  have h := msgIter_ok msg r r.conf.key 0 pe ce
    (by intro j hj; simpa using hok j hj)
  simp [Write, hc, h]

theorem C1_witness :
    Write exSink [[1], [2, 3]] (fun _ => none) none =
      (none, exSink, [("benthos_list", [1]), ("benthos_list", [2, 3])]) := by
  have h := C1_write_pushes_each_part_in_order exSink
    { addr := "localhost:6379", network := "tcp", db := 0, password := "" }
    [[1], [2, 3]] (fun _ => none) none rfl (by decide) (fun i _ => rfl)
  simpa [exSink] using h

/-- C2: with a connected sink, a write whose j-th push is the first to
fail (for any root cause `e`) issues pushes only up to and including part
j, clears the handle reference before returning, and returns the uniform
`notConnected` error; a subsequent write on the resulting sink returns
`notConnected` with no push issued. -/
theorem C2_write_failure_stops_disconnects_and_uniform_error
    (r : RedisList) (c : RedisOptions) (msg : List Part)
    (pe : Nat → Option String) (ce : Option String) (j : Nat) (e : String)
    (hc : r.client = some c) (hj : j < msg.length)
    (hok : ∀ i, i < j → pe i = none) (he : pe j = some e) :
    Write r msg pe ce =
      (some GoError.notConnected, { r with client := none },
       (msg.take (j + 1)).map (fun p => (r.conf.key, p)))
    ∧ ∀ (msg2 : List Part) (pe2 : Nat → Option String) (ce2 : Option String),
        Write { r with client := none } msg2 pe2 ce2 =
          (some GoError.notConnected, { r with client := none }, []) := by
  constructor
  · have h := msgIter_fail msg j r r.conf.key 0 pe ce e hj
      (by intro k hk; simpa using hok k hk) (by simpa using he)
    simp [Write, hc, h]
  · intro msg2 pe2 ce2
    rfl

theorem C2_witness :
    Write exSink [[1], [2], [3]]
        (fun i => if i == 1 then some "broken pipe" else none) none =
      (some GoError.notConnected, { exSink with client := none },
       [("benthos_list", [1]), ("benthos_list", [2])])
    ∧ Write { exSink with client := none } [[7]] (fun _ => none) none =
      (some GoError.notConnected, { exSink with client := none }, []) := by
  have h := C2_write_failure_stops_disconnects_and_uniform_error exSink
    { addr := "localhost:6379", network := "tcp", db := 0, password := "" }
    [[1], [2], [3]] (fun i => if i == 1 then some "broken pipe" else none)
    none 1 "broken pipe" rfl (by decide)
    (by intro i hi; have : i = 0 := by omega
        rw [this]; rfl)
    rfl
  exact ⟨by simpa [exSink] using h.1, h.2 [[7]] (fun _ => none) none⟩

/-- C3: a write on a sink with no handle installed returns `notConnected`
immediately, issues no push, and leaves the sink unchanged. -/
theorem C3_write_unconnected_immediate (r : RedisList) (msg : List Part)
    (pe : Nat → Option String) (ce : Option String) (hc : r.client = none) :
    Write r msg pe ce = (some GoError.notConnected, r, []) := by
  simp [Write, hc]

theorem C3_witness :
    Write { exSink with client := none } [[1], [2]] (fun _ => none) none =
      (some GoError.notConnected, { exSink with client := none }, []) :=
  C3_write_unconnected_immediate { exSink with client := none } [[1], [2]]
    (fun _ => none) none rfl

/-- C10: with a connected sink, a write of a message with zero parts
returns success, issues no push, and leaves the sink (and its handle)
unchanged. -/
theorem C10_write_empty_message (r : RedisList) (c : RedisOptions)
    (pe : Nat → Option String) (ce : Option String) (hc : r.client = some c) :
    Write r [] pe ce = (none, r, []) := by
  simp [Write, hc, msgIter]

theorem C10_witness :
    Write exSink [] (fun _ => none) none = (none, exSink, []) :=
  C10_write_empty_message exSink
    { addr := "localhost:6379", network := "tcp", db := 0, password := "" }
    (fun _ => none) none rfl

/-- C4 counterexample: the endpoint `tcp://localhost:6379/foo` has a
non-integer database index in its path, yet construction succeeds — the
claim that every such endpoint fails construction with a config error is
false; the index is only parsed (and rejected) later, inside `Connect`. -/
theorem C4_counterexample :
    NewRedisList { url := "tcp://localhost:6379/foo", key := "k",
                   maxInFlight := 1 } =
      .ok { url := { scheme := "tcp", hasUser := false, password := none,
                     host := "localhost:6379", path := "/foo" },
            conf := { url := "tcp://localhost:6379/foo", key := "k",
                      maxInFlight := 1 },
            client := none }
    ∧ Connect { url := { scheme := "tcp", hasUser := false, password := none,
                         host := "localhost:6379", path := "/foo" },
                conf := { url := "tcp://localhost:6379/foo", key := "k",
                          maxInFlight := 1 },
                client := none } (fun _ => none) =
      (some (GoError.invalidRedisDB "/foo"),
       { url := { scheme := "tcp", hasUser := false, password := none,
                  host := "localhost:6379", path := "/foo" },
         conf := { url := "tcp://localhost:6379/foo", key := "k",
                   maxInFlight := 1 },
         client := none }) := by
  exact ⟨rfl, rfl⟩

/-- C4 (amended): only URI parsing happens once at construction — an
unparsable URI fails construction and no sink (hence no handle) exists;
a constructed sink starts with no handle and holds the parsed URI; the
database-index parsing instead happens inside every `Connect` call, where
a non-integer index fails with the config error, installs no handle, and
leaves the sink unchanged. -/
theorem C4_db_parse_at_connect_not_construction :
    (∀ (conf : RedisListConfig) (msg : String),
       urlParse conf.url = .error msg →
       NewRedisList conf = .error (.urlParseFailed msg))
    ∧ (∀ (conf : RedisListConfig) (r : RedisList),
         NewRedisList conf = .ok r →
         r.client = none ∧ urlParse conf.url = .ok r.url)
    ∧ (∀ (r : RedisList) (pe : RedisOptions → Option String),
         1 < r.url.path.length → goAtoi (r.url.path.drop 1) = none →
         Connect r pe = (some (.invalidRedisDB r.url.path), r)) := by
  refine ⟨?_, ?_, ?_⟩
  · intro conf msg h
    simp [NewRedisList, h]
  · intro conf r h
    unfold NewRedisList at h
    cases hu : urlParse conf.url with
    | error e => rw [hu] at h; exact absurd h (by simp)
    | ok u =>
      rw [hu] at h
      simp only [Except.ok.injEq] at h
      subst h
      exact ⟨rfl, rfl⟩
  · intro r pe h1 h2
    simp [Connect, resolveDB, h1, h2]

theorem C4_witness :
    NewRedisList { url := "tcp://local\thost", key := "k", maxInFlight := 1 } =
      .error (.urlParseFailed "invalid control character in URL")
    ∧ ((NewRedisList { url := "tcp://localhost:6379", key := "k",
                       maxInFlight := 1 }).toOption.map
         (fun r => r.client) = some none)
    ∧ Connect { url := { scheme := "tcp", hasUser := false, password := none,
                         host := "localhost:6379", path := "/9x" },
                conf := { url := "tcp://localhost:6379/9x", key := "k",
                          maxInFlight := 1 },
                client := none } (fun _ => none) =
      (some (GoError.invalidRedisDB "/9x"),
       { url := { scheme := "tcp", hasUser := false, password := none,
                  host := "localhost:6379", path := "/9x" },
         conf := { url := "tcp://localhost:6379/9x", key := "k",
                   maxInFlight := 1 },
         client := none }) := by
  have h := C4_db_parse_at_connect_not_construction
  exact ⟨h.1 _ _ (by rfl), by rfl, h.2.2 _ _ (by decide) (by rfl)⟩

/-- C5 counterexample: for the endpoint path that is a separator followed
by the numeral -1 — encoding a negative integer, hence not a non-negative
one — the claim says resolution fails with a config error; instead the
code parses it with a signed-integer parse and `Connect` succeeds,
installing a client with database index -1. -/
theorem C5_counterexample :
    Connect { url := { scheme := "tcp", hasUser := false, password := none,
                       host := "localhost:6379", path := "/-1" },
              conf := { url := "tcp://localhost:6379/-1", key := "k",
                        maxInFlight := 1 },
              client := none } (fun _ => none) =
      (none,
       { url := { scheme := "tcp", hasUser := false, password := none,
                  host := "localhost:6379", path := "/-1" },
         conf := { url := "tcp://localhost:6379/-1", key := "k",
                   maxInFlight := 1 },
         client := some { addr := "localhost:6379", network := "tcp",
                          db := -1, password := "" } }) := by
  rfl

/-- C5 (amended): an absent or trivial path (at most the leading
separator) resolves to database index 0; a longer path is parsed as an
optionally signed decimal integer: on success `Connect` (with a passing
ping) installs a client with exactly that index — so `/N` with N a
non-negative decimal numeral resolves to N, but a negative numeral is
accepted too, resolving to the negative index rather than failing — and
only when the parse fails does `Connect` fail, with the config error
naming the offending path. -/
theorem C5_db_index_resolution :
    (∀ (r : RedisList), ¬ 1 < r.url.path.length →
       Connect r (fun _ => none) =
         (none, { r with client := some (clientOf r 0) }))
    ∧ (∀ (r : RedisList) (n : Int), 1 < r.url.path.length →
         goAtoi (r.url.path.drop 1) = some n →
         Connect r (fun _ => none) =
           (none, { r with client := some (clientOf r n) }))
    ∧ (∀ (r : RedisList) (pe : RedisOptions → Option String),
         1 < r.url.path.length → goAtoi (r.url.path.drop 1) = none →
         Connect r pe = (some (.invalidRedisDB r.url.path), r))
    ∧ (∀ (s : List Char), s ≠ [] → (∀ c ∈ s, c.isDigit) →
         (decValue s : Int) ≤ 2 ^ 63 - 1 →
         goAtoi (String.mk s) = some (decValue s)) := by
  refine ⟨?_, ?_, ?_, goAtoi_digits⟩
  · intro r h
    simp [Connect, resolveDB, h]
  · intro r n h1 h2
    simp [Connect, resolveDB, h1, h2]
  · intro r pe h1 h2
    simp [Connect, resolveDB, h1, h2]

theorem C5_witness :
    Connect { exSink with client := none } (fun _ => none) =
      (none, { exSink with
               client := some (clientOf { exSink with client := none } 0) })
    ∧ Connect { url := { scheme := "tcp", hasUser := true,
                         password := some "secret",
                         host := "cache-host:6379", path := "/2" },
                conf := { url := "tcp://:secret@cache-host:6379/2",
                          key := "jobs", maxInFlight := 1 },
                client := none } (fun _ => none) =
      (none,
       { url := { scheme := "tcp", hasUser := true, password := some "secret",
                  host := "cache-host:6379", path := "/2" },
         conf := { url := "tcp://:secret@cache-host:6379/2", key := "jobs",
                   maxInFlight := 1 },
         client := some { addr := "cache-host:6379", network := "tcp",
                          db := 2, password := "secret" } })
    ∧ goAtoi (String.mk ['2']) = some (decValue ['2']) := by
  have h := C5_db_index_resolution
  refine ⟨h.1 _ (by decide), ?_, h.2.2.2 ['2'] (by decide) (by decide) (by decide)⟩
  have h2 := h.2.1 { url := { scheme := "tcp", hasUser := true,
                              password := some "secret",
                              host := "cache-host:6379", path := "/2" },
                     conf := { url := "tcp://:secret@cache-host:6379/2",
                               key := "jobs", maxInFlight := 1 },
                     client := none } 2 (by decide) (by rfl)
  simpa [clientOf, passOf] using h2

/-- C6 counterexample: a previously connected sink on which a fresh
`Connect` fails its ping does surface the error and installs no new
handle, but it is not left Unconnected — the old handle is still
installed afterwards, contradicting the claim that the state after any
failing connect is Unconnected (no handle installed). -/
theorem C6_counterexample :
    Connect exSink (fun _ => some "connection refused") =
      (some (GoError.pingFailed "connection refused"), exSink)
    ∧ exSink.client =
        some { addr := "localhost:6379", network := "tcp", db := 0,
               password := "" } := by
  exact ⟨rfl, rfl⟩

/-- C6 (amended): every failing connect call surfaces its error and
installs no new handle, leaving the sink exactly as it was before the
call — a never-connected sink stays Unconnected, but a previously
connected sink retains its old handle rather than ending Unconnected. -/
theorem C6_failed_connect_leaves_sink_unchanged (r : RedisList)
    (pe : RedisOptions → Option String) (h : (Connect r pe).1 ≠ none) :
    (Connect r pe).2 = r := by
  cases hdb : resolveDB r.url with
  | error e => simp [Connect, hdb]
  | ok db =>
    cases hp : pe (clientOf r db) with
    | some e => simp [Connect, hdb, hp]
    | none =>
      exact absurd (by simp [Connect, hdb, hp]) h

theorem C6_witness :
    (Connect exSink (fun _ => some "timeout")).2 = exSink :=
  C6_failed_connect_leaves_sink_unchanged exSink (fun _ => some "timeout")
    (by decide)

/-- C7: disconnect is idempotent — called with no handle installed it is
a no-op success; after any disconnect the stored handle reference is
cleared regardless of the close outcome; hence a second consecutive
disconnect always returns success and changes nothing. -/
theorem C7_disconnect_idempotent (r : RedisList) (ce ce2 : Option String) :
    disconnect { r with client := none } ce = (none, { r with client := none })
    ∧ ((disconnect r ce).2).client = none
    ∧ disconnect (disconnect r ce).2 ce2 = (none, (disconnect r ce).2) := by
  refine ⟨rfl, by rw [disconnect_snd], by rw [disconnect_snd]; rfl⟩

/-- C8 counterexample: a failing write whose implicit disconnect also
fails to close the handle discards the close error — the write returns
the uniform `notConnected` and its entire outcome is identical to the run
in which closing succeeded, contradicting the claim that this error is
not discarded. -/
theorem C8_counterexample :
    Write exSink [[1]] (fun _ => some "broken pipe") (some "close failed") =
      (some GoError.notConnected, { exSink with client := none },
       [("benthos_list", [1])])
    ∧ Write exSink [[1]] (fun _ => some "broken pipe") (some "close failed") =
      Write exSink [[1]] (fun _ => some "broken pipe") none := by
  exact ⟨rfl, rfl⟩

/-- C8 (amended): besides the asynchronous close there is a second silent
discard: the close error of the implicit disconnect inside a failing
write — a write's outcome is entirely independent of the close outcome —
whereas a direct disconnect of a connected sink does surface the close
error synchronously. -/
theorem C8_write_discards_close_error (r : RedisList) (c : RedisOptions)
    (msg : List Part) (pe : Nat → Option String) (ce1 ce2 : Option String)
    (hc : r.client = some c) :
    Write r msg pe ce1 = Write r msg pe ce2
    ∧ (disconnect r ce1).1 = ce1.map GoError.closeFailed := by
  constructor
  · simp [Write, hc,
      msgIter_closeErr_irrelevant msg r r.conf.key 0 pe ce1 ce2]
  · simp [disconnect, hc]

theorem C8_witness :
    Write exSink [[1]] (fun _ => some "broken pipe") (some "close failed") =
      Write exSink [[1]] (fun _ => some "broken pipe") none
    ∧ (disconnect exSink (some "close failed")).1 =
        (some "close failed").map GoError.closeFailed :=
  C8_write_discards_close_error exSink
    { addr := "localhost:6379", network := "tcp", db := 0, password := "" }
    [[1]] (fun _ => some "broken pipe") (some "close failed") none rfl

end Writer
